import Mathlib

/-!
Shallow embedding of the Labyrinth backend core (files `src/db.rs`,
`backend/src/webauthn.rs`, `backend/src/error.rs`) and proofs about it.

Modelling conventions:
* `ObjectId` is an abstract identifier, embedded as `Nat`.
* Timestamps (`DateTime<Utc>`) are embedded as `Nat` seconds; the current
  time is passed explicitly where the source calls `Utc::now()`.
* The MongoDB collections are embedded as in-memory lists inside `DBState`;
  `find_one` is `List.find?` on the collection in document order and
  `update_one` updates the first document matching the query
  (`updateFirstUser` below).  Store-level I/O failures (`MongoQueryError`
  carrying a driver error) cannot occur in the pure embedding.
* Randomness (`rand::thread_rng`) is passed in explicitly as a stream of
  sampled values (`Randomness`).
* The webauthn-rs library calls (`register_credential`,
  `authenticate_credential`) are opaque cryptographic verifications; they
  are parameters of the embedded actor functions.
-/

namespace Labyrinth

/-- Identifier of a BSON document (`bson::oid::ObjectId`), kept abstract. -/
abbrev ObjectId := Nat

/-- Ranked role of a user (`auth::Role`), regular < moderator < admin. -/
inductive Role where
  | regular
  | moderator
  | admin
deriving DecidableEq, Repr

/-- Second-factor kinds from `db.rs`. -/
inductive SecondFactor where
  | Totp
  | Fido2
deriving DecidableEq, Repr

/-- Embeds `SecondFactor::from_str` (db.rs:106-112): the Rust `match` on the
string literal, with the wildcard arm mapping to `Totp`. -/
def SecondFactor.from_str (factor : String) : SecondFactor :=
  if factor = "TOTP" then SecondFactor.Totp
  else if factor = "FIDO2" then SecondFactor.Fido2
  else SecondFactor.Totp

/-- Embeds `UploadedFileVariant` (db.rs). -/
structure UploadedFileVariant where
  file_id : ObjectId
  name : String
  scale : Nat
deriving DecidableEq, Repr

/-- Embeds `UploadedFile` (db.rs). -/
structure UploadedFile where
  file_id : ObjectId
  name : String
  retina : Option String
  mime_type : String
  width : Option Nat
  height : Option Nat
  scale : Option Nat
  variants : Option (List UploadedFileVariant)
deriving DecidableEq, Repr

/-- Embeds `Riddle` (db.rs). -/
structure Riddle where
  id : ObjectId
  difficulty : Nat
  deduction : Option Nat
  level : Nat
  files : Option (List UploadedFile)
  ignore_case : Option Bool
  solution : String
  debriefing : Option String
  task : Option String
  credits : Option String
deriving DecidableEq, Repr

/-- Embeds `Direction` (db.rs): one doorway of a room. -/
structure Direction where
  direction : String
  riddle_id : ObjectId
  level : Nat
deriving DecidableEq, Repr

/-- Embeds `Room` (db.rs). -/
structure Room where
  id : ObjectId
  number : Nat
  coords : Option String
  neighbors : List Direction
  game_id : ObjectId
  entry : Option Bool
  exit : Option Bool
deriving DecidableEq, Repr

/-- Opaque in-flight webauthn registration challenge state
(`webauthn_rs::RegistrationState`). -/
abbrev RegistrationState := Nat

/-- Opaque in-flight webauthn authentication challenge state
(`webauthn_rs::AuthenticationState`). -/
abbrev AuthenticationState := Nat

/-- Embeds `webauthn_rs::proto::Credential`: credential id, public key
material, signature counter. -/
structure Credential where
  cred_id : Nat
  key : Nat
  counter : Nat
deriving DecidableEq, Repr

/-- Embeds `User` (db.rs), extended with the `authentication_state` slot that
`backend/src/webauthn.rs` reads (`user.webauthn.authentication_state`). -/
structure User where
  id : ObjectId
  username : String
  email : String
  role : Role
  hash : String
  pin : Option Nat
  activated : Bool
  created : Option Nat
  registered : Option Nat
  last_login : Option Nat
  solved : List ObjectId
  rooms_entered : List ObjectId
  level : Nat
  score : Nat
  in_room : Option ObjectId
  awaiting_second_factor : Bool
  second_factors : List SecondFactor
  totp_key : List Nat
  recovery_keys : List String
  webauthn_registration_state : Option RegistrationState
  webauthn_credentials : List Credential
  webauthn_authentication_state : Option AuthenticationState
deriving DecidableEq, Repr

/-- Embeds `User::new` (db.rs:167-198).  `id` stands for the fresh
`ObjectId::new()` and `now` for `Utc::now()`. -/
def User.new (username email : String) (role : Role) (hash : String)
    (second_factor : SecondFactor) (pin : Option Nat)
    (id : ObjectId) (now : Nat) : User :=
  { id := id
    username := username
    email := email
    role := role
    hash := hash
    pin := pin
    activated := false
    created := some now
    registered := none
    last_login := none
    solved := []
    rooms_entered := []
    level := 0
    score := 0
    in_room := none
    awaiting_second_factor := false
    second_factors := [second_factor]
    totp_key := []
    recovery_keys := []
    webauthn_registration_state := none
    webauthn_credentials := []
    webauthn_authentication_state := none }

/-- Embeds the error enum of `backend/src/error.rs`.  Constructors carrying a
source error or string payload take the payload's display text. -/
inductive Error where
  | MongoError (msg : String)
  | MongoQueryError (msg : String)
  | MongoDataError (msg : String)
  | BsonOidError (msg : String)
  | InvalidIDError (msg : String)
  | DatabaseQueryError (msg : String)
  | ScriptEnvironmentError
  | HashingError
  | PasswordTooShortError
  | UnsafePasswordError
  | TotpKeyMissingError
  | TotpQrCodeGenerationError
  | UserNotFoundError
  | InvalidUsernameError
  | UsernameOrEmailNotAvailableError
  | MalformedAddressError
  | InvalidEmailError
  | MailBuilderError
  | SmtpTransportError
  | UserUpdateError
  | UserIsNoAdminError
  | RiddleNotFoundError
  | RoomNotFoundError
  | UserIsInNoRoom
  | RiddleHasNotBeenSeenByUser
  | UserNotAssociatedWithRiddle
  | NeighborNotFoundError
  | RoomBehindNotFoundError
  | RiddleNotSolvedError
  | WrongCredentialsError
  | UnsufficentRightsError
  | CannotPromoteUserError
  | UserCannotChangeOwnRoleError
  | CannotChangeToSameRole
  | PointlessFido2Error
  | PointlessTotpError
  | TotpMissingError
  | JWTTokenError
  | JWTTokenCreationError
  | NoAuthHeaderError
  | InvalidAuthHeaderError
  | NoPermissionError
  | CheatError
  | WebauthnError
deriving DecidableEq, Repr

/-- Embeds the `thiserror` display strings (`e.to_string()`) of `error.rs`. -/
def Error.toString : Error → String
  | .MongoError m => "mongodb error: " ++ m
  | .MongoQueryError m => "error during mongodb query: " ++ m
  | .MongoDataError m => "could not access field in document: " ++ m
  | .BsonOidError m => "could not parse ObjectID " ++ m
  | .InvalidIDError m => "invalid id used: " ++ m
  | .DatabaseQueryError m => "data base query error: " ++ m
  | .ScriptEnvironmentError => "script environment error"
  | .HashingError => "hashing error"
  | .PasswordTooShortError => "password must be at least 8 characters long"
  | .UnsafePasswordError => "unsafe password"
  | .TotpKeyMissingError => "TOTP key missing error"
  | .TotpQrCodeGenerationError => "TOTP QR code generation error"
  | .UserNotFoundError => "user not found"
  | .InvalidUsernameError => "username is not valid"
  | .UsernameOrEmailNotAvailableError => "username or email not available"
  | .MalformedAddressError => "combination of username and mail address is not valid"
  | .InvalidEmailError => "mail address is not valid"
  | .MailBuilderError => "building mail failed"
  | .SmtpTransportError => "sending mail failed"
  | .UserUpdateError => "user update failed"
  | .UserIsNoAdminError => "user is no admin"
  | .RiddleNotFoundError => "riddle not found"
  | .RoomNotFoundError => "room not found"
  | .UserIsInNoRoom => "user is in no room"
  | .RiddleHasNotBeenSeenByUser => "riddle has not been seen"
  | .UserNotAssociatedWithRiddle => "user not associated with riddle"
  | .NeighborNotFoundError => "neighbor not found"
  | .RoomBehindNotFoundError => "room behind not found"
  | .RiddleNotSolvedError => "riddle not solved"
  | .WrongCredentialsError => "wrong credentials"
  | .UnsufficentRightsError => "unsufficient rights"
  | .CannotPromoteUserError => "cannot change user's role"
  | .UserCannotChangeOwnRoleError => "user cannot change own role"
  | .CannotChangeToSameRole => "cannot change to same or lower-ranked role"
  | .PointlessFido2Error => "pointless FIDO2"
  | .PointlessTotpError => "pointless TOTP"
  | .TotpMissingError => "TOTP missing"
  | .JWTTokenError => "jwt token not valid"
  | .JWTTokenCreationError => "jwt token creation error"
  | .NoAuthHeaderError => "no auth header"
  | .InvalidAuthHeaderError => "invalid auth header"
  | .NoPermissionError => "no permission"
  | .CheatError => "cheating is taboo"
  | .WebauthnError => "WebAuthn error"

/-- The three MongoDB collections of `DB` (db.rs), embedded as in-memory
lists in document order. -/
structure DBState where
  users : List User
  rooms : List Room
  riddles : List Riddle
deriving DecidableEq, Repr

/-- Embeds MongoDB `update_one`: the first document matching the query is
rewritten by the modification, all others are untouched. -/
def updateFirstUser (p : User → Bool) (f : User → User) : List User → List User
  | [] => []
  | u :: rest => if p u then f u :: rest else u :: updateFirstUser p f rest

/-- Embeds `DB::get_user` (db.rs:412-429): `find_one` on the users collection
by `username`, `UserNotFoundError` when absent. -/
def get_user (db : DBState) (username : String) : Except Error User :=
  match db.users.find? (fun u => u.username == username) with
  | some user => .ok user
  | none => .error .UserNotFoundError

/-- Embeds `DB::get_room` (db.rs:431-445): `find_one` by `_id`,
`RoomNotFoundError` when absent. -/
def get_room (db : DBState) (oid : ObjectId) : Except Error Room :=
  match db.rooms.find? (fun r => r.id == oid) with
  | some room => .ok room
  | none => .error .RoomNotFoundError

/-- Embeds `DB::get_room_behind` (db.rs:447-475): `find_one` for a room with
a doorway carrying the opposite direction label and the same riddle id. -/
def get_room_behind (db : DBState) (opposite : String) (riddle_id : ObjectId) :
    Except Error Room :=
  match db.rooms.find? (fun r =>
      r.neighbors.any (fun n => n.direction == opposite && n.riddle_id == riddle_id)) with
  | some room => .ok room
  | none => .error .RoomBehindNotFoundError

/-- Embeds `DB::is_riddle_accessible` (db.rs:362-410): resolve the user, the
user's current room, the room document, then scan the room's doorways for the
requested riddle id; each failure returns the denial triple of the source. -/
def is_riddle_accessible (db : DBState) (oid : ObjectId) (username : String) :
    Option ObjectId × Option User × Option String :=
  match get_user db username with
  | .error e => (none, none, some e.toString)
  | .ok user =>
    match user.in_room with
    | none => (none, none, some "User is nowhere. That should not have happened :-/")
    | some in_room =>
      match get_room db in_room with
      | .error e => (none, none, some e.toString)
      | .ok room =>
        match room.neighbors.find? (fun neighbor => neighbor.riddle_id == oid) with
        | some found => (some found.riddle_id, some user, none)
        | none => (none, none, some "doorway not accessible")

/-- Embeds `DB::set_user_solved` (db.rs:502-521): `update_one` keyed by
`_id` and the guard `activated: true`, setting the solved list, level and
score from the supplied record. -/
def set_user_solved (db : DBState) (solutions : List ObjectId) (user : User) : DBState :=
  let users' := updateFirstUser
    (fun u => u.id == user.id && u.activated)
    (fun u => { u with solved := solutions, level := user.level, score := user.score })
    db.users
  { db with users := users' }

/-- Embeds `DB::set_user_awaiting_2fa` (db.rs:523-538): guarded update
setting `awaiting_second_factor` to `true`. -/
def set_user_awaiting_2fa (db : DBState) (user : User) : DBState :=
  let users' := updateFirstUser
    (fun u => u.id == user.id && u.activated)
    (fun u => { u with awaiting_second_factor := true })
    db.users
  { db with users := users' }

/-- Embeds `DB::save_webauthn_registration_state` (db.rs:540-566): guarded
update keyed by `username` storing the registration challenge state. -/
def save_webauthn_registration_state (db : DBState) (username : String)
    (rs : RegistrationState) : DBState :=
  let users' := updateFirstUser
    (fun u => u.username == username && u.activated)
    (fun u => { u with awaiting_second_factor := true,
                       webauthn_registration_state := some rs })
    db.users
  { db with users := users' }

/-- Embeds `DB::save_webauthn_registration` (db.rs:568-592): guarded update
keyed by `username` storing the credential list; note that it does not touch
`webauthn_registration_state`. -/
def save_webauthn_registration (db : DBState) (username : String)
    (creds : List Credential) : DBState :=
  let users' := updateFirstUser
    (fun u => u.username == username && u.activated)
    (fun u => { u with awaiting_second_factor := true,
                       webauthn_credentials := creds })
    db.users
  { db with users := users' }

/-- Embeds `DB::rewrite_user_score` (db.rs:594-609). -/
def rewrite_user_score (db : DBState) (user : User) : DBState :=
  let users' := updateFirstUser
    (fun u => u.id == user.id && u.activated)
    (fun u => { u with score := user.score })
    db.users
  { db with users := users' }

/-- Embeds `DB::create_user` (db.rs:611-617): `insert_one` of the record. -/
def create_user (db : DBState) (user : User) : DBState :=
  { db with users := db.users ++ [user] }

/-- Embeds `DB::login_user` (db.rs:619-643): `update_one` keyed by
`username` and the guard `activated: true`, stamping `last_login` and
clearing `awaiting_second_factor`. -/
def login_user (db : DBState) (user : User) (now : Nat) : DBState :=
  let users' := updateFirstUser
    (fun u => u.username == user.username && u.activated)
    (fun u => { u with last_login := some now, awaiting_second_factor := false })
    db.users
  { db with users := users' }

/-- Streams of random values drawn inside `DB::activate_user`:
`keySegment i j` is the j-th 4-character group sampled from `KeyChars` for
the i-th recovery key, `totpBytes` is the byte stream behind
`thread_rng().gen::<[u8; 32]>()`. -/
structure Randomness where
  keySegment : Nat → Nat → String
  totpBytes : Nat → Nat

/-- Embeds `DB::activate_user` (db.rs:645-728): find the room flagged
`entry: true` (failing with `RoomNotFoundError` when absent), then set the
activation fields on the user record and persist them with an `update_one`
guarded by `activated: false`. -/
def activate_user (db : DBState) (rng : Randomness) (now : Nat) (user : User) :
    Except Error (User × DBState) :=
  match db.rooms.find? (fun r => r.entry == some true) with
  | none => .error .RoomNotFoundError
  | some entrance =>
    let first_room_id := entrance.id
    let user' : User := { user with
      activated := true
      registered := some now
      last_login := some now
      in_room := some first_room_id
      rooms_entered := user.rooms_entered ++ [first_room_id]
      pin := none
      recovery_keys := (List.range 10).map (fun i =>
        rng.keySegment i 0 ++ "-" ++ rng.keySegment i 1 ++ "-" ++
        rng.keySegment i 2 ++ "-" ++ rng.keySegment i 3)
      totp_key := (List.range 32).map rng.totpBytes }
    let users' := updateFirstUser
      (fun u => u.username == user.username && u.activated == false)
      (fun u => { u with
        activated := true
        registered := some now
        last_login := some now
        in_room := some first_room_id
        rooms_entered := user'.rooms_entered
        totp_key := user'.totp_key
        recovery_keys := user'.recovery_keys
        pin := none })
      db.users
    let db' : DBState := { db with users := users' }
    .ok (user', db')

/-! ### Webauthn actor (`backend/src/webauthn.rs`) -/

/-- Embeds the `webauthn_rs::error::WebauthnError` variants used by the
actor, plus one stand-in variant for an arbitrary library failure. -/
inductive WError where
  | UserNotPresent
  | ChallengeNotFound
  | ChallengePersistenceError
  | CredentialPersistenceError
  | CredentialRetrievalError
  | AuthenticationFailure
  | ParseNOMFailure
deriving DecidableEq, Repr

/-- Opaque wire blob of a `RegisterPublicKeyCredential`. -/
abbrev RegisterPublicKeyCredential := Nat

/-- Opaque wire blob of a `PublicKeyCredential`. -/
abbrev PublicKeyCredential := Nat

/-- Embeds `WebauthnActor::register` (webauthn.rs:140-178).
`wan_register` stands for the library call
`self.wan.register_credential(reg, &rs, ...)`.  Faithful to the source:
a verification failure is only printed (the credential list stays as it
was), the save result is discarded, and the function returns `Ok(())`
unconditionally once the user and challenge state were found. -/
def register
    (wan_register : RegisterPublicKeyCredential → RegistrationState → Except WError Credential)
    (db : DBState) (username : String) (reg : RegisterPublicKeyCredential) :
    Except WError Unit × DBState :=
  match get_user db username with
  | .error _ => (.error .UserNotPresent, db)
  | .ok user =>
    match user.webauthn_registration_state with
    | none => (.error .ChallengeNotFound, db)
    | some rs =>
      let ucreds :=
        match wan_register reg rs with
        | .ok cred => user.webauthn_credentials ++ [cred]
        | .error _ => user.webauthn_credentials
      (.ok (), save_webauthn_registration db username ucreds)

/-- Modelled from the spec: `DB::update_webauthn_cred` is called by
`WebauthnActor::authenticate` (webauthn.rs:226-232) but its definition is
not among the source files.  Per §4.1, on success the orchestrator
"persists the updated counter, clears the challenge and
`awaiting_second_factor`". -/
def update_webauthn_cred (db : DBState) (username : String)
    (cred_id : Nat) (counter : Nat) : DBState :=
  let users' := updateFirstUser
    (fun u => u.username == username)
    (fun u => { u with
      webauthn_credentials := u.webauthn_credentials.map (fun c =>
        if c.cred_id == cred_id then { c with counter := counter } else c)
      webauthn_authentication_state := none
      awaiting_second_factor := false })
    db.users
  { db with users := users' }

/-- Embeds `WebauthnActor::authenticate` (webauthn.rs:209-238).  `wan_auth`
stands for the library call `self.wan.authenticate_credential(lgn, &st)`
returning the credential id and the new signature counter. -/
def authenticate
    (wan_auth : PublicKeyCredential → AuthenticationState → Except WError (Nat × Nat))
    (db : DBState) (user : User) (lgn : PublicKeyCredential) :
    Except WError Unit × DBState :=
  match user.webauthn_authentication_state with
  | none => (.error .ChallengeNotFound, db)
  | some st =>
    match wan_auth lgn st with
    | .ok (cred_id, auth_data) => (.ok (), update_webauthn_cred db user.username cred_id auth_data)
    | .error _ => (.error .AuthenticationFailure, db)

/-- Modelled from the spec: clearing the stored `Authentication` challenge,
the `consume` half of the ChallengeLedger of §4.3 ("fetches and atomically
clears the stored challenge"). -/
def clear_authentication_challenge (db : DBState) (username : String) : DBState :=
  let users' := updateFirstUser
    (fun u => u.username == username)
    (fun u => { u with webauthn_authentication_state := none })
    db.users
  { db with users := users' }

/-- Modelled from the spec: the route-level handler that drives
`WebauthnActor::authenticate` is not among the source files.  Per §3 and
§4.3, the in-flight `Authentication` challenge is consumed (deleted)
exactly once when the matching response is verified, on success or on
failure; the handler therefore clears the stored challenge state after a
failed verification attempt as well. -/
def complete_with_hardware_key
    (wan_auth : PublicKeyCredential → AuthenticationState → Except WError (Nat × Nat))
    (db : DBState) (username : String) (lgn : PublicKeyCredential) :
    Except WError Unit × DBState :=
  match get_user db username with
  | .error _ => (.error .UserNotPresent, db)
  | .ok user =>
    match authenticate wan_auth db user lgn with
    | (.ok (), db') => (.ok (), db')
    | (.error e, db') => (.error e, clear_authentication_challenge db' username)

/-! ### Login orchestration (spec §4.1) -/

/-- Spec-level error outcomes of `begin_login` (§4.1). -/
inductive LoginError where
  | userNotFound
  | notActivated
  | wrongCredentials
deriving DecidableEq, Repr

/-- Spec-level success outcomes of `begin_login` (§4.1). -/
inductive LoginOutcome where
  | authenticated (token : String)
  | awaitingSecondFactor (factors : List SecondFactor)
deriving DecidableEq, Repr

/-- Modelled from the spec: the login route handler composing the password
check is not among the source files (only the `DB` helpers it calls are).
Per §4.1: fetch the user (`UserNotFound` if absent), fail `NotActivated`
when `activated = false`, compare the password against the stored hash
(`WrongCredentials` on mismatch), then either authenticate directly via
`DB::login_user` when no second factor is enabled, or set
`awaiting_second_factor` via `DB::set_user_awaiting_2fa` and report the
acceptable factor kinds. -/
def begin_login (verify : String → String → Bool) (mkToken : User → String)
    (now : Nat) (db : DBState) (username password : String) :
    Except LoginError LoginOutcome × DBState :=
  match get_user db username with
  | .error _ => (.error .userNotFound, db)
  | .ok user =>
    if user.activated = false then (.error .notActivated, db)
    else if verify password user.hash = false then (.error .wrongCredentials, db)
    else if user.second_factors.isEmpty then
      (.ok (.authenticated (mkToken user)), login_user db user now)
    else
      (.ok (.awaitingSecondFactor user.second_factors), set_user_awaiting_2fa db user)

/-! ### Solve-riddle advancement (spec §4.4) -/

/-- Modelled from the spec (§4.4 step 4): the progression update applied
after a correct solution — record the riddle id in the solved set
idempotently, award the difficulty-derived score/level increment only when
newly solved, move the user behind the doorway, append the new room to
`rooms_entered`, and persist under the `activated` guard. -/
def solve_advance_update (db : DBState) (user : User) (riddle : Riddle)
    (behind : Room) (riddle_id : ObjectId) : DBState :=
  let alreadySolved := user.solved.contains riddle_id
  let solved' := if alreadySolved then user.solved else user.solved ++ [riddle_id]
  let score' := if alreadySolved then user.score else user.score + riddle.difficulty
  let level' := if alreadySolved then user.level else user.level + riddle.difficulty
  let users' := updateFirstUser
    (fun u => u.id == user.id && u.activated)
    (fun u => { u with
      solved := solved'
      score := score'
      level := level'
      in_room := some behind.id
      rooms_entered := u.rooms_entered ++ [behind.id] })
    db.users
  { db with users := users' }

/-- Modelled from the spec: the solve handler `advance_on_solve` is not
among the source files (only the `DB` helpers it calls are).  Per §4.4:
verify accessibility exactly as `DB::is_riddle_accessible` does, compare
the submitted solution with the canonical one honouring `ignore_case`,
find the room behind the doorway via the opposite direction label
(`DB::get_room_behind`), then record the riddle id in the solved set
idempotently, award the difficulty-derived score/level increment only when
newly solved, move the user and persist under the `activated` guard. -/
def advance_on_solve (oppositeOf : String → String) (db : DBState)
    (username : String) (riddle_id : ObjectId) (solution : String) :
    Except String (Room × DBState) :=
  match db.users.find? (fun u => u.username == username) with
  | none => .error (Error.toString .UserNotFoundError)
  | some user =>
  match user.in_room with
  | none => .error "User is nowhere. That should not have happened :-/"
  | some in_room =>
  match db.rooms.find? (fun r => r.id == in_room) with
  | none => .error (Error.toString .RoomNotFoundError)
  | some room =>
  match room.neighbors.find? (fun neighbor => neighbor.riddle_id == riddle_id) with
  | none => .error "doorway not accessible"
  | some doorway =>
  match db.riddles.find? (fun r => r.id == riddle_id) with
  | none => .error (Error.toString .RiddleNotFoundError)
  | some riddle =>
  let solutionOk :=
    if riddle.ignore_case == some true then solution.toLower == riddle.solution.toLower
    else solution == riddle.solution
  if solutionOk = false then .error (Error.toString .RiddleNotSolvedError)
  else
    match get_room_behind db (oppositeOf doorway.direction) riddle_id with
    | .error e => .error e.toString
    | .ok behind => .ok (behind, solve_advance_update db user riddle behind riddle_id)

/-! ### Rejection handling (`backend/src/error.rs`) -/

/-- Embeds `warp::Rejection` as far as `handle_rejection` inspects it. -/
inductive Rejection where
  | notFound
  | appErr (e : Error)
  | bodyDeserialize
  | methodNotAllowed
  | unhandled
deriving DecidableEq, Repr

/-- JSON reply body of `handle_rejection` (`ErrorResponse` in error.rs). -/
structure ErrorResponse where
  ok : Bool
  code : Nat
  status : String
  message : String
deriving DecidableEq, Repr

/-- Canonical reason phrase of the status codes used by `handle_rejection`
(`StatusCode::to_string`). -/
def statusText : Nat → String
  | 400 => "400 Bad Request"
  | 401 => "401 Unauthorized"
  | 402 => "402 Payment Required"
  | 403 => "403 Forbidden"
  | 404 => "404 Not Found"
  | 405 => "405 Method Not Allowed"
  | 409 => "409 Conflict"
  | 500 => "500 Internal Server Error"
  | _ => ""

/-- Embeds `handle_rejection` (error.rs:113-159): the match arms of the
source in order, with the wildcard arm mapping every remaining application
error to 400 with the error's display text. -/
def handle_rejection (err : Rejection) : ErrorResponse :=
  let cm : Nat × String :=
    match err with
    | .notFound => (404, "Not Found")
    | .appErr e =>
      match e with
      | .CheatError => (402, e.toString)
      | .RoomBehindNotFoundError => (409, e.toString)
      | .NeighborNotFoundError => (409, e.toString)
      | .UnsafePasswordError => (409, e.toString)
      | .InvalidEmailError => (409, e.toString)
      | .InvalidUsernameError => (409, e.toString)
      | .UsernameOrEmailNotAvailableError => (409, e.toString)
      | .WrongCredentialsError => (403, e.toString)
      | .NoPermissionError => (401, e.toString)
      | .JWTTokenError => (401, e.toString)
      | .JWTTokenCreationError => (500, "Internal Server Error")
      | _ => (400, e.toString)
    | .bodyDeserialize => (400, "BodyDeserializeError")
    | .methodNotAllowed => (405, "Method Not Allowed")
    | .unhandled => (500, "Internal Server Error")
  { ok := false, code := cm.1, status := statusText cm.1, message := cm.2 }

/-- Infrastructure-class errors per spec §7: store unreachable (the Mongo
driver errors) and token-signing failure. -/
def Error.isInfrastructureClass : Error → Bool
  | .MongoError _ => true
  | .MongoQueryError _ => true
  | .MongoDataError _ => true
  | .JWTTokenCreationError => true
  | _ => false

/-- Authorization-, Validation- and Conflict-class errors per the
enumerations of spec §7. -/
def Error.isAVCClass : Error → Bool
  | .WrongCredentialsError => true
  | .RiddleNotSolvedError => true
  | .PasswordTooShortError => true
  | .UnsafePasswordError => true
  | .InvalidUsernameError => true
  | .InvalidEmailError => true
  | .UsernameOrEmailNotAvailableError => true
  | .UnsufficentRightsError => true
  | .NoPermissionError => true
  | .UserIsNoAdminError => true
  | .CheatError => true
  | .UserCannotChangeOwnRoleError => true
  | .CannotChangeToSameRole => true
  | .CannotPromoteUserError => true
  | _ => false

/-! ### Helper lemmas about the embedded `update_one` -/

/-- Each entry of an updated collection is either the original document or
the modified first match. -/
theorem updateFirstUser_getElem? (p : User → Bool) (f : User → User) :
    ∀ (l : List User) (i : Nat) (x : User), l[i]? = some x →
      (updateFirstUser p f l)[i]? = some x ∨
      ((updateFirstUser p f l)[i]? = some (f x) ∧ p x = true) := by
  intro l
  induction l with
  | nil => intro i x h; simp at h
  | cons u rest ih =>
    intro i x h
    by_cases hp : p u
    · cases i with
      | zero =>
        simp at h
        subst h
        right
        simp [updateFirstUser, hp]
      | succ n =>
        simp at h
        left
        simp [updateFirstUser, hp, h]
    · cases i with
      | zero =>
        simp at h
        subst h
        left
        simp [updateFirstUser, hp]
      | succ n =>
        simp at h
        have := ih n x h
        simpa [updateFirstUser, hp] using this

/-- Documents failing the query predicate are never touched by the update. -/
theorem updateFirstUser_of_pred_false (p : User → Bool) (f : User → User)
    (l : List User) (i : Nat) (x : User) (hx : l[i]? = some x) (hp : p x = false) :
    (updateFirstUser p f l)[i]? = some x := by
  rcases updateFirstUser_getElem? p f l i x hx with h | ⟨_, hpx⟩
  · exact h
  · rw [hpx] at hp; cases hp

/-- When the modification preserves the query predicate, looking the document
up again after the update finds the modified document. -/
theorem find?_updateFirstUser (p : User → Bool) (f : User → User)
    (hpf : ∀ u, p (f u) = p u) :
    ∀ l : List User, (updateFirstUser p f l).find? p = (l.find? p).map f := by
  intro l
  induction l with
  | nil => rfl
  | cons u rest ih =>
    by_cases hp : p u
    · simp [updateFirstUser, hp, List.find?_cons_of_pos, hpf u]
    · simp [updateFirstUser, hp, List.find?_cons_of_neg, ih]

/-- Entries of an updated collection keep `in_room` and `activated` whenever
the modification does not touch those fields. -/
theorem updateFirstUser_preserves_room_activation (p : User → Bool) (f : User → User)
    (hin : ∀ u, (f u).in_room = u.in_room) (hact : ∀ u, (f u).activated = u.activated)
    (l : List User) (i : Nat) (x : User) (hx : l[i]? = some x) :
    ∃ y, (updateFirstUser p f l)[i]? = some y ∧
      y.in_room = x.in_room ∧ y.activated = x.activated := by
  rcases updateFirstUser_getElem? p f l i x hx with h | ⟨h, _⟩
  · exact ⟨x, h, rfl, rfl⟩
  · exact ⟨f x, h, hin x, hact x⟩

/-! ### Concrete fixtures used by the witnesses -/

/-- A template user record, built by the embedded `User::new`. -/
def baseUser : User :=
  User.new "base" "base@example.com" Role.regular "h" SecondFactor.Totp none 1 0

/-- An activated user standing in room 100. -/
def alice : User :=
  { baseUser with username := "alice", activated := true, in_room := some 100 }

/-- Room 100 with a single doorway labelled "north" behind riddle 7. -/
def room100 : Room :=
  { id := 100
    number := 1
    coords := none
    neighbors := [{ direction := "north", riddle_id := 7, level := 0 }]
    game_id := 0
    entry := some true
    exit := none }

/-- Room 200, behind riddle 7, with the opposite doorway label "south". -/
def room200 : Room :=
  { id := 200
    number := 2
    coords := none
    neighbors := [{ direction := "south", riddle_id := 7, level := 0 }]
    game_id := 0
    entry := none
    exit := none }

/-- Riddle 7 with canonical solution "abc". -/
def riddle7 : Riddle :=
  { id := 7
    difficulty := 3
    deduction := none
    level := 0
    files := none
    ignore_case := none
    solution := "abc"
    debriefing := none
    task := none
    credits := none }

/-- Store with alice in room 100 and the two-room graph around riddle 7. -/
def dbAlice : DBState :=
  { users := [alice], rooms := [room100, room200], riddles := [riddle7] }

/-! ### Claim theorems -/

/-- Claim C1: `is_riddle_accessible` succeeds (returning the riddle
reference and the user) if and only if the user exists, has a current room,
that room exists, and the room's doorway list contains an entry whose
`riddle_id` equals the requested id; otherwise it returns the denial of the
first failing check, in the order user, `in_room`, room, doorway. -/
theorem is_riddle_accessible_spec (db : DBState) (oid : ObjectId) (username : String) :
    ((is_riddle_accessible db oid username).2.2 = none ↔
      ∃ user, is_riddle_accessible db oid username = (some oid, some user, none) ∧
        db.users.find? (fun u => u.username == username) = some user ∧
        ∃ rid, user.in_room = some rid ∧
        ∃ room, db.rooms.find? (fun r => r.id == rid) = some room ∧
        ∃ d, d ∈ room.neighbors ∧ d.riddle_id = oid) ∧
    (db.users.find? (fun u => u.username == username) = none →
      is_riddle_accessible db oid username =
        (none, none, some (Error.toString .UserNotFoundError))) ∧
    (∀ user, db.users.find? (fun u => u.username == username) = some user →
      user.in_room = none →
      is_riddle_accessible db oid username =
        (none, none, some "User is nowhere. That should not have happened :-/")) ∧
    (∀ user rid, db.users.find? (fun u => u.username == username) = some user →
      user.in_room = some rid →
      db.rooms.find? (fun r => r.id == rid) = none →
      is_riddle_accessible db oid username =
        (none, none, some (Error.toString .RoomNotFoundError))) ∧
    (∀ user rid room, db.users.find? (fun u => u.username == username) = some user →
      user.in_room = some rid →
      db.rooms.find? (fun r => r.id == rid) = some room →
      room.neighbors.find? (fun neighbor => neighbor.riddle_id == oid) = none →
      is_riddle_accessible db oid username =
        (none, none, some "doorway not accessible")) := by
  refine ⟨?_, ?_, ?_, ?_, ?_⟩
  · constructor
    · intro hsucc
      cases hu : db.users.find? (fun u => u.username == username) with
      | none => simp [is_riddle_accessible, get_user, hu] at hsucc
      | some user =>
        cases hin : user.in_room with
        | none => simp [is_riddle_accessible, get_user, hu, hin] at hsucc
        | some rid =>
          cases hroom : db.rooms.find? (fun r => r.id == rid) with
          | none => simp [is_riddle_accessible, get_user, get_room, hu, hin, hroom] at hsucc
          | some room =>
            cases hd : room.neighbors.find? (fun neighbor => neighbor.riddle_id == oid) with
            | none =>
              simp [is_riddle_accessible, get_user, get_room, hu, hin, hroom, hd] at hsucc
            | some d =>
              have hbeq := List.find?_some hd
              have hdid : d.riddle_id = oid := by simpa using hbeq
              have hmem : d ∈ room.neighbors := List.mem_of_find?_eq_some hd
              have hres : is_riddle_accessible db oid username = (some oid, some user, none) := by
                simp [is_riddle_accessible, get_user, get_room, hu, hin, hroom, hd, hdid]
              exact ⟨user, hres, rfl, rid, hin, room, hroom, d, hmem, hdid⟩
    · rintro ⟨user, hr, -⟩
      rw [hr]
  · intro hu
    simp [is_riddle_accessible, get_user, hu]
  · intro user hu hin
    simp [is_riddle_accessible, get_user, hu, hin]
  · intro user rid hu hin hroom
    simp [is_riddle_accessible, get_user, get_room, hu, hin, hroom]
  · intro user rid room hu hin hroom hd
    simp [is_riddle_accessible, get_user, get_room, hu, hin, hroom, hd]

/-- Witness for C1: in the concrete store, riddle 9 is denied with the
doorway denial while riddle 7 succeeds. -/
theorem is_riddle_accessible_spec_witness :
    is_riddle_accessible dbAlice 9 "alice" = (none, none, some "doorway not accessible") ∧
    (is_riddle_accessible dbAlice 7 "alice").2.2 = none :=
  ⟨(is_riddle_accessible_spec dbAlice 9 "alice").2.2.2.2 alice 100 room100 rfl rfl rfl rfl,
   ((is_riddle_accessible_spec dbAlice 7 "alice").1).mpr
     ⟨alice, rfl, rfl, 100, rfl, room100, rfl,
      { direction := "north", riddle_id := 7, level := 0 }, by simp [room100], rfl⟩⟩

/-- Claim C4: the outcome of `is_riddle_accessible` is independent of the
contents of the riddle collection — two stores that differ only in the
riddle collection produce identical results, so a denial for an unlisted
riddle id does not reveal whether that riddle exists globally. -/
theorem is_riddle_accessible_independent_of_riddles
    (users : List User) (rooms : List Room) (riddles₁ riddles₂ : List Riddle)
    (oid : ObjectId) (username : String) :
    is_riddle_accessible ⟨users, rooms, riddles₁⟩ oid username =
      is_riddle_accessible ⟨users, rooms, riddles₂⟩ oid username := rfl

/-- Claim C10: `SecondFactor::from_str` is total and maps every string other
than "FIDO2" — including "TOTP", the empty string, and any unrecognized
label — to `Totp`. -/
theorem from_str_total_defaults_to_totp :
    (∀ s : String, SecondFactor.from_str s =
      if s = "FIDO2" then SecondFactor.Fido2 else SecondFactor.Totp) ∧
    SecondFactor.from_str "TOTP" = SecondFactor.Totp ∧
    SecondFactor.from_str "" = SecondFactor.Totp ∧
    SecondFactor.from_str "anything-else" = SecondFactor.Totp ∧
    SecondFactor.from_str "FIDO2" = SecondFactor.Fido2 := by
  refine ⟨?_, rfl, rfl, rfl, rfl⟩
  intro s
  by_cases h1 : s = "TOTP"
  · subst h1; rfl
  · by_cases h2 : s = "FIDO2" <;> simp [SecondFactor.from_str, h1, h2]

/-- An activated user with a live webauthn registration challenge and an
empty credential list. -/
def carol : User :=
  { baseUser with username := "carol", activated := true,
                  webauthn_registration_state := some 5 }

/-- Store holding only carol. -/
def dbCarol : DBState := { users := [carol], rooms := [], riddles := [] }

/-- A webauthn library verifier that rejects every attestation response. -/
def rejectAttestation : RegisterPublicKeyCredential → RegistrationState → Except WError Credential :=
  fun _ _ => .error .ParseNOMFailure

/-- A webauthn library verifier that accepts every attestation response,
yielding a fixed new credential. -/
def acceptAttestation : RegisterPublicKeyCredential → RegistrationState → Except WError Credential :=
  fun _ _ => .ok { cred_id := 42, key := 1, counter := 0 }

/-- Claim C2 (evidence of the code bug): with a live registration challenge,
a failed attestation verification still makes `WebauthnActor::register`
return `Ok(())` — the library error is only printed — and the registration
challenge state survives the call; even a successful verification appends
the credential but never clears the challenge state. -/
theorem register_divergence_on_failed_attestation :
    (register rejectAttestation dbCarol "carol" 99).1 = .ok () ∧
    ((register rejectAttestation dbCarol "carol" 99).2.users.map
      (fun u => u.webauthn_registration_state)) = [some 5] ∧
    ((register rejectAttestation dbCarol "carol" 99).2.users.map
      (fun u => u.webauthn_credentials)) = [[]] ∧
    (register acceptAttestation dbCarol "carol" 99).1 = .ok () ∧
    ((register acceptAttestation dbCarol "carol" 99).2.users.map
      (fun u => u.webauthn_credentials)) = [[{ cred_id := 42, key := 1, counter := 0 }]] ∧
    ((register acceptAttestation dbCarol "carol" 99).2.users.map
      (fun u => u.webauthn_registration_state)) = [some 5] :=
  ⟨rfl, rfl, rfl, rfl, rfl, rfl⟩

/-- The success case of the embedded `DB::get_user` is exactly a successful
`find_one` on the users collection. -/
theorem get_user_ok_iff (db : DBState) (username : String) (user : User) :
    get_user db username = .ok user ↔
    db.users.find? (fun u => u.username == username) = some user := by
  cases h : db.users.find? (fun u => u.username == username) with
  | none => simp [get_user, h]
  | some u0 => simp [get_user, h]

/-- Re-finding a user by name after a modification that keeps the username
finds the modified record. -/
theorem find?_username_updateFirstUser (username : String) (f : User → User)
    (hf : ∀ u, (f u).username = u.username) (l : List User) (user : User)
    (hfind : l.find? (fun u => u.username == username) = some user) :
    (updateFirstUser (fun u => u.username == username) f l).find?
      (fun u => u.username == username) = some (f user) := by
  have h := find?_updateFirstUser (fun u => u.username == username) f
    (by intro u; show ((f u).username == username) = (u.username == username); rw [hf]) l
  rw [hfind] at h
  simpa using h

/-- A completion attempt against a user with no live challenge fails with
`ChallengeNotFound`. -/
theorem complete_no_challenge (wan_auth : PublicKeyCredential → AuthenticationState → Except WError (Nat × Nat))
    (db : DBState) (username : String) (lgn : PublicKeyCredential) (user : User)
    (hfind : db.users.find? (fun u => u.username == username) = some user)
    (hnone : user.webauthn_authentication_state = none) :
    (complete_with_hardware_key wan_auth db username lgn).1 = .error .ChallengeNotFound := by
  have hu : get_user db username = .ok user := (get_user_ok_iff db username user).mpr hfind
  simp [complete_with_hardware_key, hu, authenticate, hnone]

/-- After a completion attempt against a live challenge, the stored
challenge state of the user is cleared, whether verification succeeded or
failed. -/
theorem complete_consumes_challenge
    (wan_auth : PublicKeyCredential → AuthenticationState → Except WError (Nat × Nat))
    (db : DBState) (username : String) (lgn : PublicKeyCredential)
    (user : User) (st : AuthenticationState)
    (hfind : db.users.find? (fun u => u.username == username) = some user)
    (hst : user.webauthn_authentication_state = some st) :
    ∃ user', ((complete_with_hardware_key wan_auth db username lgn).2).users.find?
        (fun u => u.username == username) = some user' ∧
      user'.webauthn_authentication_state = none := by
  have hu : get_user db username = .ok user := (get_user_ok_iff db username user).mpr hfind
  have husername : user.username = username := by
    have h := List.find?_some hfind
    simpa using h
  cases hv : wan_auth lgn st with
  | ok pr =>
    obtain ⟨cid, cnt⟩ := pr
    have hres : (complete_with_hardware_key wan_auth db username lgn).2 =
        update_webauthn_cred db user.username cid cnt := by
      simp [complete_with_hardware_key, hu, authenticate, hst, hv]
    rw [hres, husername]
    simp only [update_webauthn_cred]
    have hfu := find?_username_updateFirstUser username
      (fun u => { u with
        webauthn_credentials := u.webauthn_credentials.map (fun c =>
          if c.cred_id == cid then { c with counter := cnt } else c)
        webauthn_authentication_state := none
        awaiting_second_factor := false })
      (fun u => rfl) db.users user hfind
    exact ⟨_, hfu, rfl⟩
  | error e =>
    have hres : (complete_with_hardware_key wan_auth db username lgn).2 =
        clear_authentication_challenge db username := by
      simp [complete_with_hardware_key, hu, authenticate, hst, hv]
    rw [hres]
    simp only [clear_authentication_challenge]
    have hfu := find?_username_updateFirstUser username
      (fun u => { u with webauthn_authentication_state := none })
      (fun u => rfl) db.users user hfind
    exact ⟨_, hfu, rfl⟩

/-- Claim C3: completing hardware-key authentication fails with
`ChallengeNotFound` when no live `Authentication` challenge exists, and the
challenge is consumed exactly once — after a verification attempt (success
or failure), replaying a response fails with `ChallengeNotFound` rather
than being re-validated against the stale challenge state. -/
theorem hardware_key_challenge_consumed_once
    (wan_auth : PublicKeyCredential → AuthenticationState → Except WError (Nat × Nat))
    (db : DBState) (username : String) (lgn lgn' : PublicKeyCredential) :
    (∀ user, get_user db username = .ok user →
      user.webauthn_authentication_state = none →
      (complete_with_hardware_key wan_auth db username lgn).1 = .error .ChallengeNotFound) ∧
    (∀ user st, get_user db username = .ok user →
      user.webauthn_authentication_state = some st →
      (complete_with_hardware_key wan_auth
        (complete_with_hardware_key wan_auth db username lgn).2 username lgn').1
        = .error .ChallengeNotFound) := by
  constructor
  · intro user hu hnone
    exact complete_no_challenge wan_auth db username lgn user
      ((get_user_ok_iff db username user).mp hu) hnone
  · intro user st hu hst
    obtain ⟨user', hfind', hnone'⟩ := complete_consumes_challenge wan_auth db username lgn
      user st ((get_user_ok_iff db username user).mp hu) hst
    exact complete_no_challenge wan_auth _ username lgn' user' hfind' hnone'

/-- An activated user with a live webauthn authentication challenge. -/
def dave : User :=
  { baseUser with username := "dave", activated := true,
                  webauthn_authentication_state := some 3,
                  webauthn_credentials := [{ cred_id := 42, key := 1, counter := 0 }] }

/-- An activated user with no live webauthn authentication challenge. -/
def erin : User :=
  { baseUser with username := "erin", activated := true }

/-- Store holding dave and erin. -/
def dbDave : DBState := { users := [dave, erin], rooms := [], riddles := [] }

/-- A webauthn library verifier accepting every assertion with counter 5. -/
def acceptAssertion : PublicKeyCredential → AuthenticationState → Except WError (Nat × Nat) :=
  fun _ _ => .ok (42, 5)

/-- Witness for C3: erin (no live challenge) is rejected with
`ChallengeNotFound`, and replaying dave's accepted response is rejected
with `ChallengeNotFound`. -/
theorem hardware_key_challenge_consumed_once_witness :
    (complete_with_hardware_key acceptAssertion dbDave "erin" 11).1
      = .error .ChallengeNotFound ∧
    (complete_with_hardware_key acceptAssertion
      (complete_with_hardware_key acceptAssertion dbDave "dave" 11).2 "dave" 11).1
      = .error .ChallengeNotFound :=
  ⟨(hardware_key_challenge_consumed_once acceptAssertion dbDave "erin" 11 11).1 erin rfl rfl,
   (hardware_key_challenge_consumed_once acceptAssertion dbDave "dave" 11 11).2 dave 3 rfl rfl⟩

/-- Claim C5: a user with `activated = false` can never pass `begin_login`
— the outcome is the `NotActivated` error, never `Authenticated`, and the
store is left untouched, so no session is issued; moreover the
login-completion update of `DB::login_user` carries the `activated: true`
guard, so it leaves every record with `activated = false` unchanged. -/
theorem begin_login_blocks_nonactivated
    (verify : String → String → Bool) (mkToken : User → String) (now : Nat)
    (db : DBState) (username password : String) :
    (∀ user, get_user db username = .ok user → user.activated = false →
      begin_login verify mkToken now db username password = (.error .notActivated, db)) ∧
    (∀ (user : User) (nowa : Nat) (i : Nat) (x : User),
      db.users[i]? = some x → x.activated = false →
      (login_user db user nowa).users[i]? = some x) := by
  constructor
  · intro user hu hact
    simp [begin_login, hu, hact]
  · intro user nowa i x hx hact
    have hp : (x.username == user.username && x.activated) = false := by
      simp [hact]
    exact updateFirstUser_of_pred_false _ _ db.users i x hx hp

/-- A non-activated user with a pin, awaiting activation. -/
def frank : User :=
  { baseUser with username := "frank", activated := false, pin := some 123456 }

/-- Store holding only frank. -/
def dbFrank : DBState :=
  { users := [frank], rooms := [room100, room200], riddles := [riddle7] }

/-- Witness for C5: frank (not activated) is rejected with `NotActivated`
even with a password check that accepts everything, and the login-stamp
update leaves frank's record unchanged. -/
theorem begin_login_blocks_nonactivated_witness :
    begin_login (fun _ _ => true) (fun _ => "token") 7 dbFrank "frank" "pw"
      = (.error .notActivated, dbFrank) ∧
    (login_user dbFrank frank 7).users[0]? = some frank :=
  ⟨(begin_login_blocks_nonactivated (fun _ _ => true) (fun _ => "token") 7 dbFrank
      "frank" "pw").1 frank rfl rfl,
   (begin_login_blocks_nonactivated (fun _ _ => true) (fun _ => "token") 7 dbFrank
      "frank" "pw").2 frank 7 0 frank rfl rfl⟩

/-- Claim C7: for a non-activated user, a successful `activate_user` sets
`activated = true`, sets `in_room` to the id of the room flagged as entry
(failing with `RoomNotFoundError` when no entry room exists), appends that
room to `rooms_entered`, removes the pin, generates exactly ten recovery
keys, and provisions a fresh 32-byte TOTP shared secret. -/
theorem activate_user_spec (db : DBState) (rng : Randomness) (now : Nat) (user : User) :
    user.activated = false →
    ((db.rooms.find? (fun r => r.entry == some true) = none →
      activate_user db rng now user = .error .RoomNotFoundError) ∧
     (∀ room, db.rooms.find? (fun r => r.entry == some true) = some room →
      ∃ u' db', activate_user db rng now user = .ok (u', db') ∧
        u'.activated = true ∧
        u'.in_room = some room.id ∧
        u'.rooms_entered = user.rooms_entered ++ [room.id] ∧
        u'.pin = none ∧
        u'.recovery_keys.length = 10 ∧
        u'.totp_key = (List.range 32).map rng.totpBytes ∧
        u'.totp_key.length = 32)) := by
  intro _
  constructor
  · intro h
    simp [activate_user, h]
  · intro room h
    unfold activate_user
    rw [h]
    exact ⟨_, _, rfl, rfl, rfl, rfl, rfl, by simp, rfl, by simp⟩

/-- Fixed random streams for the activation witness. -/
def rngFixed : Randomness :=
  { keySegment := fun _ _ => "aaaa", totpBytes := fun _ => 0 }

/-- Witness for C7: activating frank in a store whose entry room is room
100 succeeds and establishes every activation postcondition. -/
theorem activate_user_spec_witness :
    ∃ u' db', activate_user dbFrank rngFixed 7 frank = .ok (u', db') ∧
      u'.activated = true ∧
      u'.in_room = some room100.id ∧
      u'.rooms_entered = frank.rooms_entered ++ [room100.id] ∧
      u'.pin = none ∧
      u'.recovery_keys.length = 10 ∧
      u'.totp_key = (List.range 32).map rngFixed.totpBytes ∧
      u'.totp_key.length = 32 :=
  ((activate_user_spec dbFrank rngFixed 7 frank) rfl).2 room100 rfl

/-- Claim C8: a freshly created user has `activated = false` and no room;
every store operation other than activation keeps both `in_room` and
`activated` of every record unchanged; and `activate_user` — the sole
transition that touches both — sets `activated = true` together with a
present `in_room`, so the invariant `in_room = none ↔ activated = false`
is preserved everywhere. -/
theorem in_room_activated_invariant :
    (∀ (username email : String) (role : Role) (hash : String)
       (sf : SecondFactor) (pin : Option Nat) (id : ObjectId) (now : Nat),
      (User.new username email role hash sf pin id now).in_room = none ∧
      (User.new username email role hash sf pin id now).activated = false) ∧
    (∀ (db : DBState) (sols : List ObjectId) (user : User) (i : Nat) (x : User),
      db.users[i]? = some x →
      ∃ y, (set_user_solved db sols user).users[i]? = some y ∧
        y.in_room = x.in_room ∧ y.activated = x.activated) ∧
    (∀ (db : DBState) (user : User) (i : Nat) (x : User),
      db.users[i]? = some x →
      ∃ y, (set_user_awaiting_2fa db user).users[i]? = some y ∧
        y.in_room = x.in_room ∧ y.activated = x.activated) ∧
    (∀ (db : DBState) (username : String) (rs : RegistrationState) (i : Nat) (x : User),
      db.users[i]? = some x →
      ∃ y, (save_webauthn_registration_state db username rs).users[i]? = some y ∧
        y.in_room = x.in_room ∧ y.activated = x.activated) ∧
    (∀ (db : DBState) (username : String) (creds : List Credential) (i : Nat) (x : User),
      db.users[i]? = some x →
      ∃ y, (save_webauthn_registration db username creds).users[i]? = some y ∧
        y.in_room = x.in_room ∧ y.activated = x.activated) ∧
    (∀ (db : DBState) (user : User) (i : Nat) (x : User),
      db.users[i]? = some x →
      ∃ y, (rewrite_user_score db user).users[i]? = some y ∧
        y.in_room = x.in_room ∧ y.activated = x.activated) ∧
    (∀ (db : DBState) (user : User) (now : Nat) (i : Nat) (x : User),
      db.users[i]? = some x →
      ∃ y, (login_user db user now).users[i]? = some y ∧
        y.in_room = x.in_room ∧ y.activated = x.activated) ∧
    (∀ (db : DBState) (user : User), (create_user db user).users = db.users ++ [user]) ∧
    (∀ (db : DBState) (rng : Randomness) (now : Nat) (user u' : User) (db' : DBState),
      activate_user db rng now user = .ok (u', db') →
      (u'.activated = true ∧ u'.in_room ≠ none) ∧
      ∀ (i : Nat) (x : User), db.users[i]? = some x →
        ∃ y, db'.users[i]? = some y ∧
          ((y.in_room = x.in_room ∧ y.activated = x.activated) ∨
           (y.activated = true ∧ y.in_room ≠ none))) := by
  refine ⟨?_, ?_, ?_, ?_, ?_, ?_, ?_, ?_, ?_⟩
  · intro username email role hash sf pin id now
    exact ⟨rfl, rfl⟩
  · intro db sols user i x hx
    exact updateFirstUser_preserves_room_activation
      (fun u => u.id == user.id && u.activated)
      (fun u => { u with solved := sols, level := user.level, score := user.score })
      (fun u => rfl) (fun u => rfl) db.users i x hx
  · intro db user i x hx
    exact updateFirstUser_preserves_room_activation
      (fun u => u.id == user.id && u.activated)
      (fun u => { u with awaiting_second_factor := true })
      (fun u => rfl) (fun u => rfl) db.users i x hx
  · intro db username rs i x hx
    exact updateFirstUser_preserves_room_activation
      (fun u => u.username == username && u.activated)
      (fun u => { u with awaiting_second_factor := true,
                         webauthn_registration_state := some rs })
      (fun u => rfl) (fun u => rfl) db.users i x hx
  · intro db username creds i x hx
    exact updateFirstUser_preserves_room_activation
      (fun u => u.username == username && u.activated)
      (fun u => { u with awaiting_second_factor := true,
                         webauthn_credentials := creds })
      (fun u => rfl) (fun u => rfl) db.users i x hx
  · intro db user i x hx
    exact updateFirstUser_preserves_room_activation
      (fun u => u.id == user.id && u.activated)
      (fun u => { u with score := user.score })
      (fun u => rfl) (fun u => rfl) db.users i x hx
  · intro db user now i x hx
    exact updateFirstUser_preserves_room_activation
      (fun u => u.username == user.username && u.activated)
      (fun u => { u with last_login := some now, awaiting_second_factor := false })
      (fun u => rfl) (fun u => rfl) db.users i x hx
  · intro db user
    rfl
  · intro db rng now user u' db' h
    unfold activate_user at h
    cases hfind : db.rooms.find? (fun r => r.entry == some true) with
    | none =>
      rw [hfind] at h
      cases h
    | some entrance =>
      rw [hfind] at h
      simp only [Except.ok.injEq, Prod.mk.injEq] at h
      obtain ⟨h1, h2⟩ := h
      subst h1
      subst h2
      refine ⟨⟨rfl, by simp⟩, ?_⟩
      intro i x hx
      rcases updateFirstUser_getElem?
          (fun u => u.username == user.username && u.activated == false)
          (fun u => { u with
            activated := true
            registered := some now
            last_login := some now
            in_room := some entrance.id
            rooms_entered := (user.rooms_entered ++ [entrance.id])
            totp_key := (List.range 32).map rng.totpBytes
            recovery_keys := (List.range 10).map (fun i =>
              rng.keySegment i 0 ++ "-" ++ rng.keySegment i 1 ++ "-" ++
              rng.keySegment i 2 ++ "-" ++ rng.keySegment i 3)
            pin := none })
          db.users i x hx with hcase | hcase
      · exact ⟨x, hcase, Or.inl ⟨rfl, rfl⟩⟩
      · exact ⟨_, hcase.1, Or.inr ⟨rfl, by simp⟩⟩

/-- When the riddle is already in the user's solved set, the progression
update leaves the solved set, score and level of every stored record
unchanged (ids are unique across the collection, as for Mongo `_id`
values). -/
theorem solve_advance_update_already_solved (db : DBState) (user : User)
    (riddle : Riddle) (behind : Room) (rid : ObjectId)
    (hnd : (db.users.map (fun u => u.id)).Nodup)
    (humem : user ∈ db.users)
    (hsolved : user.solved.contains rid = true)
    (i : Nat) (x : User) (hx : db.users[i]? = some x) :
    ∃ y, (solve_advance_update db user riddle behind rid).users[i]? = some y ∧
      y.solved = x.solved ∧ y.score = x.score ∧ y.level = x.level := by
  rcases updateFirstUser_getElem? (fun u => u.id == user.id && u.activated)
      (fun u => { u with
        solved := if user.solved.contains rid then user.solved else user.solved ++ [rid]
        score := if user.solved.contains rid then user.score else user.score + riddle.difficulty
        level := if user.solved.contains rid then user.level else user.level + riddle.difficulty
        in_room := some behind.id
        rooms_entered := u.rooms_entered ++ [behind.id] })
      db.users i x hx with h | ⟨h, hpx⟩
  · exact ⟨x, h, rfl, rfl, rfl⟩
  · have hxid : x.id = user.id := by
      have h1 := hpx
      simp at h1
      exact h1.1
    have hxmem : x ∈ db.users := List.getElem?_mem hx
    have hxu : x = user := List.inj_on_of_nodup_map hnd hxmem humem hxid
    subst hxu
    refine ⟨_, h, ?_, ?_, ?_⟩ <;>
      simp only [hsolved, eq_self_iff_true, if_true]

/-- Claim C6: `advance_on_solve` is idempotent on the solved set and score
— when the requested riddle is already in the user's solved set, a
successful advancement changes no record's solved set, score or level, so
re-solving neither duplicates the entry nor re-awards the
difficulty-derived increment. -/
theorem advance_on_solve_idempotent
    (oppositeOf : String → String) (db : DBState) (username : String)
    (rid : ObjectId) (sol : String) (user : User) (res : Room × DBState) :
    (db.users.map (fun u => u.id)).Nodup →
    db.users.find? (fun u => u.username == username) = some user →
    user.solved.contains rid = true →
    advance_on_solve oppositeOf db username rid sol = .ok res →
    ∀ (i : Nat) (x : User), db.users[i]? = some x →
      ∃ y, res.2.users[i]? = some y ∧
        y.solved = x.solved ∧ y.score = x.score ∧ y.level = x.level := by
  intro hnd hfind hsolved hadv i x hx
  have humem : user ∈ db.users := List.mem_of_find?_eq_some hfind
  simp only [advance_on_solve, hfind] at hadv
  cases hin : user.in_room with
  | none => simp [hin] at hadv
  | some inr =>
    simp only [hin] at hadv
    cases hroom : db.rooms.find? (fun r => r.id == inr) with
    | none => simp [hroom] at hadv
    | some room =>
      simp only [hroom] at hadv
      cases hdw : room.neighbors.find? (fun neighbor => neighbor.riddle_id == rid) with
      | none => simp [hdw] at hadv
      | some doorway =>
        simp only [hdw] at hadv
        cases hrd : db.riddles.find? (fun r => r.id == rid) with
        | none => simp [hrd] at hadv
        | some riddle =>
          simp only [hrd] at hadv
          cases hok : (if riddle.ignore_case == some true
              then sol.toLower == riddle.solution.toLower
              else sol == riddle.solution) with
          | false => simp only [hok] at hadv; simp at hadv
          | true =>
            simp only [hok] at hadv
            cases hbh : get_room_behind db (oppositeOf doorway.direction) rid with
            | error e => simp [hbh] at hadv
            | ok behind =>
              simp only [hbh] at hadv
              simp at hadv
              subst hadv
              exact solve_advance_update_already_solved db user riddle behind rid
                hnd humem hsolved i x hx

/-- The opposite-direction map of the four cardinal labels. -/
def oppositeCardinal : String → String
  | "north" => "south"
  | "south" => "north"
  | "east" => "west"
  | "west" => "east"
  | d => d

/-- An activated user in room 100 who has already solved riddle 7. -/
def grace : User :=
  { baseUser with username := "grace", activated := true,
                  in_room := some 100, solved := [7], level := 3, score := 3 }

/-- Store with grace in the two-room graph around the already-solved
riddle 7. -/
def dbGrace : DBState :=
  { users := [grace], rooms := [room100, room200], riddles := [riddle7] }

/-- The store after grace re-solves riddle 7: she moved to room 200 and
entered it, everything else unchanged. -/
def dbGraceAfter : DBState :=
  { dbGrace with users := [{ grace with in_room := some 200, rooms_entered := [200] }] }

/-- Witness for C6: re-solving riddle 7 succeeds (it is reachable again
from the room behind) but leaves grace's solved set, score and level
untouched. -/
theorem advance_on_solve_idempotent_witness :
    ∃ y, dbGraceAfter.users[0]? = some y ∧
      y.solved = grace.solved ∧ y.score = grace.score ∧ y.level = grace.level :=
  advance_on_solve_idempotent oppositeCardinal dbGrace "grace" 7 "abc" grace
    (room200, dbGraceAfter) (by decide) rfl rfl rfl 0 grace rfl

/-- Frank's record after activation with the fixed random streams. -/
def frankActivated : User :=
  { frank with
    activated := true
    registered := some 7
    last_login := some 7
    in_room := some 100
    rooms_entered := [100]
    pin := none
    recovery_keys := List.replicate 10 "aaaa-aaaa-aaaa-aaaa"
    totp_key := List.replicate 32 0 }

/-- The store after frank's activation. -/
def dbFrankActivated : DBState := { dbFrank with users := [frankActivated] }

/-- Witness for C8: a fresh user satisfies the invariant, the login-stamp
update keeps alice's room and activation flag, and activating frank flips
`activated` together with a present `in_room`. -/
theorem in_room_activated_invariant_witness :
    ((User.new "wanda" "wanda@example.com" Role.regular "h" SecondFactor.Totp
        none 9 0).in_room = none ∧
     (User.new "wanda" "wanda@example.com" Role.regular "h" SecondFactor.Totp
        none 9 0).activated = false) ∧
    (∃ y, (login_user dbAlice alice 9).users[0]? = some y ∧
      y.in_room = alice.in_room ∧ y.activated = alice.activated) ∧
    (frankActivated.activated = true ∧ frankActivated.in_room ≠ none) ∧
    (∃ y, dbFrankActivated.users[0]? = some y ∧
      ((y.in_room = frank.in_room ∧ y.activated = frank.activated) ∨
       (y.activated = true ∧ y.in_room ≠ none))) :=
  ⟨in_room_activated_invariant.1 "wanda" "wanda@example.com" Role.regular "h"
      SecondFactor.Totp none 9 0,
   in_room_activated_invariant.2.2.2.2.2.2.1 dbAlice alice 9 0 alice rfl,
   (in_room_activated_invariant.2.2.2.2.2.2.2.2 dbFrank rngFixed 7 frank
      frankActivated dbFrankActivated rfl).1,
   (in_room_activated_invariant.2.2.2.2.2.2.2.2 dbFrank rngFixed 7 frank
      frankActivated dbFrankActivated rfl).2 0 frank rfl⟩

/-- Claim C9 counterexample: a store-level error — Infrastructure-class per
the spec — is mapped by `handle_rejection` to status 400 with the internal
driver message exposed, not to a generic 5xx response. -/
theorem infrastructure_error_mapped_to_400 :
    Error.isInfrastructureClass (.MongoQueryError "connection refused") = true ∧
    (handle_rejection (.appErr (.MongoQueryError "connection refused"))).code = 400 ∧
    ¬ 500 ≤ (handle_rejection (.appErr (.MongoQueryError "connection refused"))).code ∧
    (handle_rejection (.appErr (.MongoQueryError "connection refused"))).message
      = "error during mongodb query: connection refused" :=
  ⟨rfl, rfl, by decide, rfl⟩

/-- Claim C9 (amended): every Authorization-, Validation- and Conflict-class
error is mapped to a 4xx status; the token-signing failure is mapped to the
generic 500 response whose message is independent of the error; but the
store-level Mongo errors fall into the 400 catch-all with the internal
driver message exposed. -/
theorem handle_rejection_classes
    (e : Error) (m : String) :
    (e.isAVCClass = true →
      400 ≤ (handle_rejection (.appErr e)).code ∧
      (handle_rejection (.appErr e)).code < 500) ∧
    ((handle_rejection (.appErr .JWTTokenCreationError)).code = 500 ∧
     (handle_rejection (.appErr .JWTTokenCreationError)).message
       = "Internal Server Error") ∧
    ((handle_rejection (.appErr (.MongoError m))).code = 400 ∧
     (handle_rejection (.appErr (.MongoError m))).message = "mongodb error: " ++ m) ∧
    ((handle_rejection (.appErr (.MongoQueryError m))).code = 400 ∧
     (handle_rejection (.appErr (.MongoQueryError m))).message
       = "error during mongodb query: " ++ m) ∧
    ((handle_rejection (.appErr (.MongoDataError m))).code = 400 ∧
     (handle_rejection (.appErr (.MongoDataError m))).message
       = "could not access field in document: " ++ m) := by
  refine ⟨?_, ⟨rfl, rfl⟩, ⟨rfl, rfl⟩, ⟨rfl, rfl⟩, ⟨rfl, rfl⟩⟩
  intro he
  cases e <;> simp [Error.isAVCClass] at he <;>
    exact ⟨by decide, by decide⟩

/-- Witness for C9: the doorway-denial error (`CheatError`, 402) and the
self-role-change conflict (400) land in the 4xx range. -/
theorem handle_rejection_classes_witness :
    (400 ≤ (handle_rejection (.appErr .CheatError)).code ∧
     (handle_rejection (.appErr .CheatError)).code < 500) ∧
    (400 ≤ (handle_rejection (.appErr .UserCannotChangeOwnRoleError)).code ∧
     (handle_rejection (.appErr .UserCannotChangeOwnRoleError)).code < 500) ∧
    (handle_rejection (.appErr (.MongoQueryError "timeout"))).code = 400 :=
  ⟨(handle_rejection_classes .CheatError "timeout").1 rfl,
   (handle_rejection_classes .UserCannotChangeOwnRoleError "timeout").1 rfl,
   (handle_rejection_classes .CheatError "timeout").2.2.2.1.1⟩

end Labyrinth
